import Mathlib

/-!
Shallow embedding of the utility methods of `docs/Method.js` (class
`UtilityMethods`) and proofs about them.

The embedding covers:

* `fetchWithTimeout(url, options, timeout)`: the helper races `fetch`
  against a `setTimeout` timer that calls `controller.abort()`.  The
  underlying transport is abstracted as a `FetchBehavior`: it either
  settles at some event-loop time with a success value or an error value,
  or it hangs forever (in which case the abort signal, which the transport
  observes cooperatively, makes the awaited `fetch` reject with an error
  named "AbortError").  Side effects are made explicit in an `Effects`
  record (timers scheduled, `clearTimeout` calls, `abort` calls), and the
  options object handed to the transport is returned so that pass-through
  can be stated.  The fresh `AbortController` signal of the invocation is
  a parameter `sig`.
* `truncateText`, `shuffleArray`, `generateUniqueId`: pure list functions;
  JS strings become `List Char`, `Math.random()`-driven choices become an
  explicit choice stream `r : Nat → Nat` reduced modulo the range that
  `Math.floor(Math.random() * k)` produces.
-/

namespace UtilityMethods

/-- A JavaScript error value, reduced to the two fields this code ever
reads or sets: `name` and `message`. -/
structure JSError where
  name : String
  message : String
deriving DecidableEq

/-- Behaviour of the underlying transport (`fetch`) for one invocation,
absent any abort: it either settles at event-loop time `t` with a success
payload or a failure, or it never settles on its own. -/
inductive FetchBehavior (ρ : Type) where
  | settles (t : Nat) (outcome : Except JSError ρ)
  | hangs

/-- Observable side effects of one `fetchWithTimeout` invocation: how many
timers were scheduled with `setTimeout`, how many `clearTimeout` calls were
made, and how many times `controller.abort()` ran. -/
structure Effects where
  timersScheduled : Nat
  clearTimeoutCalls : Nat
  abortCalls : Nat
deriving DecidableEq

/-- Everything one invocation of `fetchWithTimeout` produces: the value
returned or the error thrown, the side-effect log, and the options object
that was handed to the transport. -/
structure RunResult (V ρ : Type) where
  result : Except JSError ρ
  effects : Effects
  transportOptions : String → Option V

/-- The fixed message of the error thrown on timeout (line 166 of the
source). -/
def timeoutMessage : String :=
  "La requête a été abandonnée : délai d\x27attente dépassé"

/-- The error thrown by the timeout branch of the catch block:
`new Error(...)` has name "Error" and the fixed French message. -/
def timedOutError : JSError :=
  ⟨"Error", timeoutMessage⟩

/-- The rejection `fetch` produces when the abort signal fires: a
DOMException named "AbortError". -/
def abortError : JSError :=
  ⟨"AbortError", "The operation was aborted"⟩

/-- The event-loop time at which the scheduled timer fires.  `setTimeout`
clamps a negative delay to zero, which is exactly `Int.toNat`. -/
def timerFireTime (timeout : Int) : Nat :=
  timeout.toNat

/-- Whether the timer fires before the request settles, i.e. whether
`controller.abort()` runs.  On the success and transport-failure paths the
request settles strictly before the timer fires and `clearTimeout` then
suppresses it; a settlement not strictly earlier than the fire time means
the abort already happened; a hanging transport is always aborted. -/
def timerFiresFirst (timeout : Int) : FetchBehavior ρ → Bool
  | .settles t _ => timerFireTime timeout ≤ t
  | .hangs => true

/-- What `await fetch(...)` observes: the transport outcome when it
settles strictly before the timer fires, and otherwise a rejection with
the abort error (the settlement of the loser, if any, is suppressed). -/
def awaitedFetch (timeout : Int) : FetchBehavior ρ → Except JSError ρ
  | .settles t o => if t < timerFireTime timeout then o else .error abortError
  | .hangs => .error abortError

/-- The catch block (lines 162 to 170): an error named "AbortError" is
replaced by the fixed timeout error, any other error is rethrown as is. -/
def catchBlock (e : JSError) : JSError :=
  if e.name = "AbortError" then timedOutError else e

/-- Embedding of `fetchWithTimeout(url, options = \x7b\x7d, timeout = 5000)`.
The fresh signal of the `AbortController` created on line 152 is the
parameter `sig`; `options` is the caller-supplied options object as a
partial map from field names to values.  Line 156 to 159 hand the
transport the spread `\x7b...options, signal: controller.signal\x7d`.  One
timer is scheduled on line 153, and `clearTimeout` runs exactly once, on
line 160 or on line 163. -/
def fetchWithTimeout (url : String) (options : String → Option V) (timeout : Int)
    (sig : V) (b : FetchBehavior ρ) : RunResult V ρ :=
  ⟨(awaitedFetch timeout b).mapError catchBlock,
   ⟨1, 1, if timerFiresFirst timeout b then 1 else 0⟩,
   fun k => if k = "signal" then some sig else options k⟩

/-- Classification of an invocation outcome into the three terminal kinds
of the race. -/
inductive OutcomeKind where
  | success
  | timedOut
  | otherFailure
deriving DecidableEq

/-- The kind of a result: success, the distinguished timeout error, or any
other failure. -/
def outcomeKind : Except JSError ρ → OutcomeKind
  | .ok _ => .success
  | .error e => if e = timedOutError then .timedOut else .otherFailure

/-- Embedding of `truncateText(text, maxLength, suffix = "...")` (lines 43
to 46).  JS `text.substring(0, n)` with `n ≤ text.length` is `List.take n`,
and the clamp of a negative `n` to `0` is the truncated subtraction. -/
def truncateText (text : List Char) (maxLength : Nat) (suffix : List Char) :
    List Char :=
  if text.length ≤ maxLength then text
  else text.take (maxLength - suffix.length) ++ suffix

/-- One JS destructuring swap `[a[i], a[j]] = [a[j], a[i]]`: position `i`
receives the old `a[j]` and position `j` the old `a[i]`.  When either index
is out of range the list is returned unchanged; the shuffle loop below only
ever uses in-range indices. -/
def listSwap (l : List α) (i j : Nat) : List α :=
  match l[i]?, l[j]? with
  | some x, some y => (l.set i y).set j x
  | _, _ => l

/-- The loop of `shuffleArray` (lines 92 to 95): `i` runs from
`length - 1` down to `1`, and `j = Math.floor(Math.random() * (i + 1))`,
modelled as `r i % (i + 1)`, which ranges over exactly `0..i` as the
source expression does. -/
def fisherYatesAux (r : Nat → Nat) : List α → Nat → List α
  | a, 0 => a
  | a, i + 1 => fisherYatesAux r (listSwap a (i + 1) (r (i + 1) % (i + 2))) i

/-- Embedding of `shuffleArray(array)` (lines 90 to 97).  The source first
copies the input with the spread `[...array]` and mutates only the copy
`shuffled`; we model the call as returning the pair of (the caller array
as it stands after the call, the returned array). -/
def shuffleArray (r : Nat → Nat) (array : List α) : List α × List α :=
  let shuffled := array
  (array, fisherYatesAux r shuffled (shuffled.length - 1))

/-- The alphabet string of `generateUniqueId` (lines 25 to 26). -/
def characters : List Char :=
  "ABCDEFGHIJKLMNOPQRSTUVWXYZabcdefghijklmnopqrstuvwxyz0123456789".toList

/-- JS `String.prototype.charAt(i)`: the one-character string at a valid
index, and the empty string out of range. -/
def charAt (s : List Char) (i : Nat) : List Char :=
  match s[i]? with
  | some c => [c]
  | none => []

/-- Embedding of `generateUniqueId(length = 10)` (lines 24 to 34): after
`n + 1` loop iterations the result is the result after `n` iterations with
`characters.charAt(Math.floor(Math.random() * characters.length))` appended,
the random index modelled as `r n % characters.length`. -/
def generateUniqueId (r : Nat → Nat) : Nat → List Char
  | 0 => []
  | n + 1 => generateUniqueId r n ++ charAt characters (r n % characters.length)

/-- C1: whenever the timer fires before the request settles,
`fetchWithTimeout` fails with the distinguished timeout error carrying the
fixed human-readable message, and `controller.abort()` — the cancellation
signal to the transport — is issued exactly once. -/
theorem fetchWithTimeout_timedOut {V ρ : Type} (url : String)
    (options : String → Option V) (timeout : Int) (sig : V) (b : FetchBehavior ρ)
    (h : timerFiresFirst timeout b = true) :
    (fetchWithTimeout url options timeout sig b).result = .error timedOutError ∧
    (fetchWithTimeout url options timeout sig b).effects.abortCalls = 1 := by
  constructor
  · cases b with
    | hangs =>
        simp [fetchWithTimeout, awaitedFetch, Except.mapError, catchBlock, abortError]
    | settles t o =>
        have ht : timerFireTime timeout ≤ t := by
          simpa [timerFiresFirst] using h
        simp [fetchWithTimeout, awaitedFetch, Except.mapError, Nat.not_lt.mpr ht,
          catchBlock, abortError]
  · simp [fetchWithTimeout, h]

/-- Witness for C1 at a concrete input: a hanging transport with a 100 ms
timeout. -/
theorem fetchWithTimeout_timedOut_witness :
    timerFiresFirst 100 (FetchBehavior.hangs : FetchBehavior Nat) = true ∧
    ((fetchWithTimeout "u" (fun _ => (none : Option Nat)) 100 0
        (FetchBehavior.hangs : FetchBehavior Nat)).result =
        .error timedOutError ∧
      (fetchWithTimeout "u" (fun _ => (none : Option Nat)) 100 0
        (FetchBehavior.hangs : FetchBehavior Nat)).effects.abortCalls = 1) :=
  ⟨by decide,
   fetchWithTimeout_timedOut "u" (fun _ => none) 100 0 FetchBehavior.hangs
     (by decide)⟩

/-- C2 as stated is false: here the transport itself fails (before the
timer fires, so the abort was never issued: `abortCalls = 0`) with an error
that happens to be named "AbortError", and the helper does not surface that
original error — it replaces it with the timeout error. -/
theorem fetchWithTimeout_originalError_counterexample :
    (fetchWithTimeout "u" (fun _ => (none : Option Nat)) 100 0
        (FetchBehavior.settles 0 (Except.error ⟨"AbortError", "socket hang up"⟩) :
          FetchBehavior Nat)).effects.abortCalls = 0 ∧
    (fetchWithTimeout "u" (fun _ => (none : Option Nat)) 100 0
        (FetchBehavior.settles 0 (Except.error ⟨"AbortError", "socket hang up"⟩) :
          FetchBehavior Nat)).result ≠
      Except.error ⟨"AbortError", "socket hang up"⟩ ∧
    (fetchWithTimeout "u" (fun _ => (none : Option Nat)) 100 0
        (FetchBehavior.settles 0 (Except.error ⟨"AbortError", "socket hang up"⟩) :
          FetchBehavior Nat)).result = .error timedOutError := by
  have hres :
      (fetchWithTimeout "u" (fun _ => (none : Option Nat)) 100 0
        (FetchBehavior.settles 0 (Except.error ⟨"AbortError", "socket hang up"⟩) :
          FetchBehavior Nat)).result = .error timedOutError := by
    simp [fetchWithTimeout, awaitedFetch, Except.mapError, catchBlock,
      timerFireTime]
  refine ⟨by decide, ?_, hres⟩
  rw [hres]
  intro hc
  have hj : timedOutError = (⟨"AbortError", "socket hang up"⟩ : JSError) := by
    injection hc
  exact absurd hj (by decide)

/-- C2 (amended): whenever the transport fails, before the timer fires,
with an error whose name is not "AbortError", the helper fails with the
original error value unaltered and the timer is cleared without the abort
ever being issued. -/
theorem fetchWithTimeout_originalError {V ρ : Type} (url : String)
    (options : String → Option V) (timeout : Int) (sig : V) (t : Nat)
    (e : JSError) (h1 : t < timerFireTime timeout)
    (h2 : e.name ≠ "AbortError") :
    (fetchWithTimeout url options timeout sig
        (FetchBehavior.settles t (Except.error e) : FetchBehavior ρ)).result =
      .error e ∧
    (fetchWithTimeout url options timeout sig
        (FetchBehavior.settles t (Except.error e) :
          FetchBehavior ρ)).effects.clearTimeoutCalls = 1 ∧
    (fetchWithTimeout url options timeout sig
        (FetchBehavior.settles t (Except.error e) :
          FetchBehavior ρ)).effects.abortCalls = 0 := by
  refine ⟨?_, rfl, ?_⟩
  · simp [fetchWithTimeout, awaitedFetch, Except.mapError, h1, catchBlock, h2]
  · simp [fetchWithTimeout, timerFiresFirst, Nat.not_le.mpr h1]

/-- Witness for the amended C2 at a concrete input: a TypeError from the
transport at time 0 with a 100 ms timeout. -/
theorem fetchWithTimeout_originalError_witness :
    (0 < timerFireTime 100 ∧
      JSError.name ⟨"TypeError", "fetch failed"⟩ ≠ "AbortError") ∧
    ((fetchWithTimeout "u" (fun _ => (none : Option Nat)) 100 0
        (FetchBehavior.settles 0 (Except.error ⟨"TypeError", "fetch failed"⟩) :
          FetchBehavior Nat)).result =
        Except.error ⟨"TypeError", "fetch failed"⟩ ∧
      (fetchWithTimeout "u" (fun _ => (none : Option Nat)) 100 0
        (FetchBehavior.settles 0 (Except.error ⟨"TypeError", "fetch failed"⟩) :
          FetchBehavior Nat)).effects.clearTimeoutCalls = 1 ∧
      (fetchWithTimeout "u" (fun _ => (none : Option Nat)) 100 0
        (FetchBehavior.settles 0 (Except.error ⟨"TypeError", "fetch failed"⟩) :
          FetchBehavior Nat)).effects.abortCalls = 0) :=
  ⟨⟨by decide, by decide⟩,
   fetchWithTimeout_originalError "u" (fun _ => none) 100 0 0
     ⟨"TypeError", "fetch failed"⟩ (by decide) (by decide)⟩

/-- C3: whenever the transport settles successfully before the timer
fires, the helper returns the raw response unchanged, and the side effects
are exactly one scheduled timer, one `clearTimeout` call and no abort. -/
theorem fetchWithTimeout_success {V ρ : Type} (url : String)
    (options : String → Option V) (timeout : Int) (sig : V) (t : Nat)
    (resp : ρ) (h : t < timerFireTime timeout) :
    (fetchWithTimeout url options timeout sig
        (FetchBehavior.settles t (Except.ok resp) : FetchBehavior ρ)).result =
      .ok resp ∧
    (fetchWithTimeout url options timeout sig
        (FetchBehavior.settles t (Except.ok resp) : FetchBehavior ρ)).effects =
      ⟨1, 1, 0⟩ := by
  constructor
  · simp [fetchWithTimeout, awaitedFetch, Except.mapError, h]
  · simp [fetchWithTimeout, timerFiresFirst, Nat.not_le.mpr h]

/-- Witness for C3 at a concrete input: the transport succeeds at time 50
with payload 200 against a 100 ms timeout. -/
theorem fetchWithTimeout_success_witness :
    50 < timerFireTime 100 ∧
    ((fetchWithTimeout "u" (fun _ => (none : Option Nat)) 100 0
        (FetchBehavior.settles 50 (Except.ok 200) : FetchBehavior Nat)).result =
        .ok 200 ∧
      (fetchWithTimeout "u" (fun _ => (none : Option Nat)) 100 0
        (FetchBehavior.settles 50 (Except.ok 200) : FetchBehavior Nat)).effects =
        ⟨1, 1, 0⟩) :=
  ⟨by decide,
   fetchWithTimeout_success "u" (fun _ => none) 100 0 50 200 (by decide)⟩

/-- C4 as stated is false: the spread on lines 156 to 159 ends with
`signal: controller.signal`, so a caller-set `signal` option (here the
value 1) is not passed through — the transport receives the fresh signal
of the helper (here 0) instead. -/
theorem fetchWithTimeout_options_counterexample :
    ((fun k => if k = "signal" then some (1 : Nat) else none) "signal" =
      some 1) ∧
    (fetchWithTimeout "u" (fun k => if k = "signal" then some (1 : Nat) else none)
        100 0 (FetchBehavior.hangs : FetchBehavior Nat)).transportOptions
        "signal" ≠ some 1 := by
  refine ⟨rfl, ?_⟩
  intro hcontra
  simp [fetchWithTimeout] at hcontra

/-- C4 (amended): every option field other than `signal` that the caller
set is handed to the transport unmodified, and the `signal` field the
transport receives is the fresh signal of the helper. -/
theorem fetchWithTimeout_options_passthrough {V ρ : Type} (url : String)
    (options : String → Option V) (timeout : Int) (sig : V)
    (b : FetchBehavior ρ) (k : String) (h : k ≠ "signal") :
    (fetchWithTimeout url options timeout sig b).transportOptions k =
      options k ∧
    (fetchWithTimeout url options timeout sig b).transportOptions "signal" =
      some sig := by
  constructor
  · simp [fetchWithTimeout, h]
  · simp [fetchWithTimeout]

/-- Witness for the amended C4 at a concrete input: the field "method" set
by the caller reaches the transport unchanged, and the signal field is the
fresh one. -/
theorem fetchWithTimeout_options_passthrough_witness :
    ("method" : String) ≠ "signal" ∧
    ((fetchWithTimeout "u" (fun k => if k = "method" then some (7 : Nat) else none)
        100 9 (FetchBehavior.hangs : FetchBehavior Nat)).transportOptions
        "method" =
        (fun k => if k = "method" then some (7 : Nat) else none) "method" ∧
      (fetchWithTimeout "u" (fun k => if k = "method" then some (7 : Nat) else none)
        100 9 (FetchBehavior.hangs : FetchBehavior Nat)).transportOptions
        "signal" = some 9) :=
  ⟨by decide,
   fetchWithTimeout_options_passthrough "u"
     (fun k => if k = "method" then some 7 else none) 100 9 FetchBehavior.hangs
     "method" (by decide)⟩

/-- C5: every invocation schedules exactly one timer, and `clearTimeout`
runs exactly once on every exit path, so no invocation terminates with the
timer still scheduled. -/
theorem fetchWithTimeout_timer_hygiene {V ρ : Type} (url : String)
    (options : String → Option V) (timeout : Int) (sig : V)
    (b : FetchBehavior ρ) :
    (fetchWithTimeout url options timeout sig b).effects.timersScheduled = 1 ∧
    (fetchWithTimeout url options timeout sig b).effects.clearTimeoutCalls = 1 :=
  ⟨rfl, rfl⟩

/-- C6: against the same deterministic transport behaviour and identical
caller inputs, two invocations — which differ only in the fresh controller
signal each one creates — produce outcomes of the same kind. -/
theorem fetchWithTimeout_outcomeKind_deterministic {V ρ : Type} (url : String)
    (options : String → Option V) (timeout : Int) (sig1 sig2 : V)
    (b : FetchBehavior ρ) :
    outcomeKind (fetchWithTimeout url options timeout sig1 b).result =
      outcomeKind (fetchWithTimeout url options timeout sig2 b).result :=
  rfl

/-- C7: a zero or negative timeout is not validated: the call proceeds,
the timer fires immediately (its delay is clamped to zero) and wins the
race against every transport behaviour, so the helper fails with the
timeout error after the usual schedule, abort and clear effects. -/
theorem fetchWithTimeout_nonpositive_timeout {V ρ : Type} (url : String)
    (options : String → Option V) (timeout : Int) (sig : V)
    (b : FetchBehavior ρ) (h : timeout ≤ 0) :
    (fetchWithTimeout url options timeout sig b).result =
      .error timedOutError ∧
    (fetchWithTimeout url options timeout sig b).effects = ⟨1, 1, 1⟩ := by
  have hz : timerFireTime timeout = 0 := by
    simp only [timerFireTime]
    omega
  cases b with
  | hangs =>
      exact ⟨by simp [fetchWithTimeout, awaitedFetch, Except.mapError, catchBlock, abortError],
        by simp [fetchWithTimeout, timerFiresFirst]⟩
  | settles t o =>
      constructor
      · simp [fetchWithTimeout, awaitedFetch, Except.mapError, hz, catchBlock,
          abortError]
      · simp [fetchWithTimeout, timerFiresFirst, hz]

/-- Witness for C7 at a concrete input: timeout minus 7, against a
transport that would succeed at time 3 — the race still produces the
timeout failure. -/
theorem fetchWithTimeout_nonpositive_timeout_witness :
    (-7 : Int) ≤ 0 ∧
    ((fetchWithTimeout "u" (fun _ => (none : Option Nat)) (-7) 0
        (FetchBehavior.settles 3 (Except.ok 5) : FetchBehavior Nat)).result =
        .error timedOutError ∧
      (fetchWithTimeout "u" (fun _ => (none : Option Nat)) (-7) 0
        (FetchBehavior.settles 3 (Except.ok 5) : FetchBehavior Nat)).effects =
        ⟨1, 1, 1⟩) :=
  ⟨by decide,
   fetchWithTimeout_nonpositive_timeout "u" (fun _ => none) (-7) 0
     (FetchBehavior.settles 3 (Except.ok 5)) (by decide)⟩

/-- C8: when the suffix is no longer than the maximum length, a text longer
than the maximum is truncated to exactly `maxLength` characters ending in
the suffix, and a text within the maximum is returned unchanged. -/
theorem truncateText_spec (text suffix : List Char) (maxLength : Nat)
    (hs : suffix.length ≤ maxLength) :
    (maxLength < text.length →
      (truncateText text maxLength suffix).length = maxLength ∧
      List.IsSuffix suffix (truncateText text maxLength suffix)) ∧
    (text.length ≤ maxLength → truncateText text maxLength suffix = text) := by
  constructor
  · intro hlong
    have hnot : ¬ text.length ≤ maxLength := Nat.not_le.mpr hlong
    have heq : truncateText text maxLength suffix =
        text.take (maxLength - suffix.length) ++ suffix := by
      simp [truncateText, hnot]
    constructor
    · rw [heq]
      simp only [List.length_append, List.length_take]
      omega
    · rw [heq]
      exact List.suffix_append _ _
  · intro hshort
    simp [truncateText, hshort]

/-- Witness for C8 at a concrete input: a six-character text truncated to
four characters with the default three-dot suffix. -/
theorem truncateText_spec_witness :
    (['.', '.', '.'] : List Char).length ≤ 4 ∧
    ((4 < (['a', 'b', 'c', 'd', 'e', 'f'] : List Char).length →
      (truncateText ['a', 'b', 'c', 'd', 'e', 'f'] 4 ['.', '.', '.']).length = 4 ∧
      List.IsSuffix ['.', '.', '.']
        (truncateText ['a', 'b', 'c', 'd', 'e', 'f'] 4 ['.', '.', '.'])) ∧
    ((['a', 'b', 'c', 'd', 'e', 'f'] : List Char).length ≤ 4 →
      truncateText ['a', 'b', 'c', 'd', 'e', 'f'] 4 ['.', '.', '.'] =
        ['a', 'b', 'c', 'd', 'e', 'f'])) :=
  ⟨by decide, truncateText_spec ['a', 'b', 'c', 'd', 'e', 'f'] ['.', '.', '.'] 4
    (by decide)⟩

/-- Consing the element stored at position `k` onto the list with that
position overwritten by `x` is a permutation of consing `x` onto the
original list. -/
theorem cons_set_perm (l : List α) (k : Nat) (x y : α) (h : l[k]? = some y) :
    List.Perm (y :: l.set k x) (x :: l) := by
  induction l generalizing k with
  | nil => simp at h
  | cons b t ih =>
    cases k with
    | zero =>
      simp at h
      subst h
      exact List.Perm.swap _ _ _
    | succ k =>
      simp at h
      have step1 : List.Perm (y :: b :: t.set k x) (b :: y :: t.set k x) :=
        List.Perm.swap b y (t.set k x)
      have step2 : List.Perm (b :: y :: t.set k x) (b :: x :: t) :=
        List.Perm.cons b (ih k h)
      have step3 : List.Perm (b :: x :: t) (x :: b :: t) :=
        List.Perm.swap x b t
      simpa using (step1.trans step2).trans step3

/-- Overwriting position `i` with the element of position `j` and position
`j` with the element of position `i` permutes the list. -/
theorem set_set_perm (l : List α) (i j : Nat) (x y : α)
    (hx : l[i]? = some x) (hy : l[j]? = some y) :
    List.Perm ((l.set i y).set j x) l := by
  induction l generalizing i j with
  | nil => simp at hx
  | cons a t ih =>
    cases i with
    | zero =>
      simp at hx
      cases j with
      | zero =>
        simp at hy
        subst hx
        subst hy
        simp
      | succ j =>
        simp at hy
        subst hx
        simpa using cons_set_perm t j a y hy
    | succ i =>
      simp at hx
      cases j with
      | zero =>
        simp at hy
        subst hy
        simpa using cons_set_perm t i a x hx
      | succ j =>
        simp at hy
        simpa using List.Perm.cons a (ih i j hx hy)

/-- The JS destructuring swap permutes the list, for any indices. -/
theorem listSwap_perm (l : List α) (i j : Nat) :
    List.Perm (listSwap l i j) l := by
  cases hx : l[i]? with
  | none =>
    cases hy : l[j]? with
    | none => simp [listSwap, hx, hy]
    | some y => simp [listSwap, hx, hy]
  | some x =>
    cases hy : l[j]? with
    | none => simp [listSwap, hx, hy]
    | some y =>
      simp only [listSwap, hx, hy]
      exact set_set_perm l i j x y hx hy

/-- The Fisher and Yates loop of `shuffleArray` permutes the list for any
starting index and any choice stream. -/
theorem fisherYatesAux_perm (r : Nat → Nat) (l : List α) (n : Nat) :
    List.Perm (fisherYatesAux r l n) l := by
  induction n generalizing l with
  | zero => exact List.Perm.refl l
  | succ i ih =>
    exact (ih (listSwap l (i + 1) (r (i + 1) % (i + 2)))).trans
      (listSwap_perm l (i + 1) (r (i + 1) % (i + 2)))

/-- C9: `shuffleArray` leaves the caller array unmodified and returns a new
array that is a permutation of the input — same length and the same
multiset of elements. -/
theorem shuffleArray_spec (r : Nat → Nat) (array : List α) :
    (shuffleArray r array).1 = array ∧
    List.Perm (shuffleArray r array).2 array ∧
    (shuffleArray r array).2.length = array.length ∧
    ((shuffleArray r array).2 : Multiset α) = (array : Multiset α) := by
  have hperm : List.Perm (shuffleArray r array).2 array :=
    fisherYatesAux_perm r array (array.length - 1)
  exact ⟨rfl, hperm, hperm.length_eq, (Multiset.coe_eq_coe).mpr hperm⟩

/-- A valid index makes `charAt` return the one-character string there. -/
theorem charAt_valid (s : List Char) (i : Nat) (h : i < s.length) :
    charAt s i = [s[i]] := by
  simp [charAt, List.getElem?_eq_getElem h]

/-- C10: for every choice stream and every length, `generateUniqueId`
returns a string of exactly `length` characters, each of them drawn from
the alphabet `characters`, which has exactly 62 distinct characters, all
of them ASCII uppercase letters, lowercase letters or digits. -/
theorem generateUniqueId_spec (r : Nat → Nat) (n : Nat) :
    (generateUniqueId r n).length = n ∧
    (∀ c ∈ generateUniqueId r n, c ∈ characters) ∧
    characters.length = 62 ∧ characters.Nodup ∧
    (∀ c ∈ characters, c.isUpper = true ∨ c.isLower = true ∨ c.isDigit = true) := by
  refine ⟨?_, ?_, by decide, by decide, by decide⟩
  · induction n with
    | zero => rfl
    | succ m ih =>
      have hlt : r m % characters.length < characters.length :=
        Nat.mod_lt _ (by decide)
      simp [generateUniqueId, charAt_valid characters _ hlt, ih]
  · induction n with
    | zero => simp [generateUniqueId]
    | succ m ih =>
      intro c hc
      have hlt : r m % characters.length < characters.length :=
        Nat.mod_lt _ (by decide)
      rw [generateUniqueId] at hc
      rcases List.mem_append.mp hc with h1 | h2
      · exact ih c h1
      · rw [charAt_valid characters _ hlt] at h2
        simp at h2
        subst h2
        exact List.getElem_mem _

end UtilityMethods
